import Mathlib

/-!
Verification of the CwmVDI desktop-brokering system.

The repository contains the React frontend (API client `services/api.ts`,
types `types/index.ts`, components) and the Go companion agent
(`agent/internal/heartbeat`, `agent/internal/urihandler`, …).  The backend
(SessionBroker, StateReconciler, IdlePolicy) is not part of the source tree;
where a property depends on it, the corresponding definitions are modelled
from the specification and are marked as such in their doc comments.
-/

namespace CwmVDI

/-- Desktop lifecycle state.  The eight values are exactly the members of the
TypeScript union for `Desktop.current_state` in `frontend/src/types/index.ts`:
`"on" | "off" | "suspended" | "starting" | "suspending" | "provisioning" |
"error" | "unknown"`. -/
inductive DesktopState
  | on
  | off
  | suspended
  | starting
  | suspending
  | provisioning
  | error
  | unknown
deriving DecidableEq, Repr

/-- The literal strings of the `current_state` union type in
`frontend/src/types/index.ts` (line 19), in source order. -/
def currentStateValues : List String :=
  ["on", "off", "suspended", "starting", "suspending", "provisioning", "error", "unknown"]

/-- The string key of a state, as it appears in the TypeScript union. -/
def DesktopState.key : DesktopState → String
  | .on => "on"
  | .off => "off"
  | .suspended => "suspended"
  | .starting => "starting"
  | .suspending => "suspending"
  | .provisioning => "provisioning"
  | .error => "error"
  | .unknown => "unknown"

/-- The transition relation of §3 of the specification:
`provisioning → {on, error}`; `on → {suspending, off, error}`;
`suspending → {suspended, error}`; `suspended → {starting, error}`;
`starting → {on, error}`; `off → {starting}`; `error` terminal. -/
def allowedTransition : DesktopState → DesktopState → Bool
  | .provisioning, .on => true
  | .provisioning, .error => true
  | .on, .suspending => true
  | .on, .off => true
  | .on, .error => true
  | .suspending, .suspended => true
  | .suspending, .error => true
  | .suspended, .starting => true
  | .suspended, .error => true
  | .starting, .on => true
  | .starting, .error => true
  | .off, .starting => true
  | _, _ => false

/-- Modelled from the spec: the state-changing operations of the backend
(StateReconciler, SessionBroker.Connect step 3, IdlePolicy, admin power
commands), which is absent from `src/`.  Each constructor is one state
mutation the specification names: completion or timeout of provisioning
(§4.2), Connect powering on an `off`/`suspended` desktop and polling to `on`
(§4.3 step 3), the idle-suspend sweep (§4.5), suspend completing or failing,
and an admin/reconciled power-off or fault while `on`. -/
inductive BrokerStep : DesktopState → DesktopState → Prop
  | provisionDone : BrokerStep .provisioning .on
  | provisionTimeout : BrokerStep .provisioning .error
  | connectPowerOn : BrokerStep .off .starting
  | connectResume : BrokerStep .suspended .starting
  | resumeFailed : BrokerStep .suspended .error
  | pollObservedOn : BrokerStep .starting .on
  | startFailed : BrokerStep .starting .error
  | idleSuspend : BrokerStep .on .suspending
  | suspendDone : BrokerStep .suspending .suspended
  | suspendFailed : BrokerStep .suspending .error
  | adminPowerOff : BrokerStep .on .off
  | onFault : BrokerStep .on .error

/-- Modelled from the spec: `unknown` is the default `current_state` when no
state check has yet succeeded (§3). -/
def defaultState : DesktopState := DesktopState.unknown

/-- A session record.  Fields follow §3 of the specification and the
TypeScript `AdminSession`/`AuditEntry` types in `frontend/src/types/index.ts`:
desktop and user references, `connection_type` (`"browser" | "native"`),
`started_at`, nullable `last_heartbeat`, and `ended_at`/`end_reason` once
closed.  Timestamps are seconds as natural numbers. -/
structure Session where
  id : String
  desktop_id : String
  user_id : String
  connection_type : String
  started_at : Nat
  last_heartbeat : Option Nat
  ended_at : Option Nat
  end_reason : Option String
deriving DecidableEq, Repr

/-- Closing a session with a reason: a no-op when the session is already
ended (closing is idempotent, §3), otherwise sets `ended_at`/`end_reason`. -/
def endSession (now : Nat) (reason : String) (s : Session) : Session :=
  if s.ended_at.isSome then s
  else { s with ended_at := some now, end_reason := some reason }

/-- The error taxonomy of §7 relevant to Connect/Disconnect. -/
inductive ConnectError
  | NotFound
  | Forbidden
  | MFARequired
  | MFAInvalid
  | StartTimeout
  | TransportFailure
deriving DecidableEq, Repr

/-- Modelled from the spec: `SessionBroker.Disconnect(sessionId)` (§4.3),
absent from `src/`.  Idempotently marks the session ended with
`end_reason = "user_disconnect"` if not already ended; not finding the
session, or finding it already ended, is not an error, so the error
component is always `none`. -/
def SessionBroker.Disconnect (sid : String) (now : Nat) (store : List Session) :
    List Session × Option ConnectError :=
  (store.map fun s => if s.id = sid then endSession now "user_disconnect" s else s, none)

/-- A transport-layer grant (§6): a tunnel token plus URL, or a direct
host plus port. -/
inductive Grant
  | tunnel (token url : String)
  | direct (host : String) (port : Nat)
deriving DecidableEq, Repr

/-- The connection descriptor returned by a successful Connect (§4.3 step 6,
§6): session id, desktop name, connection type, and the grant. -/
structure ConnectionDescriptor where
  session_id : String
  desktop_name : String
  connection_type : String
  grant : Grant
deriving DecidableEq, Repr

/-- An outward call the broker makes to a collaborator: a
`ProviderClient.Power` command, a transport grant issuance, or the session
row insertion into the store. -/
inductive BrokerCall
  | providerPower (action : String)
  | transportIssue
  | insertSession
deriving DecidableEq, Repr

/-- The environment of one Connect call: results of the lookups and of the
external collaborators (desktop lookup, ownership check, MFA policy and
verifier, current desktop state, power-on polling outcome, transport grant
outcome), plus the request data. -/
structure ConnectEnv where
  desktopFound : Bool
  ownerOk : Bool
  mfaRequired : Bool
  mfaProof : Option String
  mfaValid : Bool
  desktopState : DesktopState
  powerOnOk : Bool
  grantResult : Option Grant
  desktopId : String
  userId : String
  connType : String
  desktopName : String
  newSessionId : String
deriving DecidableEq, Repr

/-- The `ProviderClient.Power` calls of §4.3 step 3: none when the desktop
is already `on`, otherwise `resume` for a `suspended` desktop and
`power_on` for the rest (in particular `off`). -/
def powerCallsFor (st : DesktopState) : List BrokerCall :=
  if st = .on then []
  else [.providerPower (if st = .suspended then "resume" else "power_on")]

/-- Modelled from the spec: `SessionBroker.Connect` (§4.3), absent from
`src/`.  Steps strictly in order: (1) desktop lookup → `NotFound`;
ownership → `Forbidden`; (2) MFA gate → `MFARequired`/`MFAInvalid` before
any collaborator call; (3) power-on (`resume` for `suspended`, `power_on`
otherwise) when not `on`, polling until `on` or `StartTimeout`; (4) transport
grant → `TransportFailure`; (5) session row inserted last, only after the
grant is confirmed (`started_at = now`, `last_heartbeat = null`); (6) return
the descriptor.  Returns the result, the list of collaborator calls made,
and the session store after the call. -/
def SessionBroker.Connect (env : ConnectEnv) (now : Nat) (store : List Session) :
    Except ConnectError ConnectionDescriptor × List BrokerCall × List Session :=
  if env.desktopFound = false then (Except.error .NotFound, [], store)
  else if env.ownerOk = false then (Except.error .Forbidden, [], store)
  else if env.mfaRequired = true ∧ env.mfaProof = none then
    (Except.error .MFARequired, [], store)
  else if env.mfaRequired = true ∧ env.mfaValid = false then
    (Except.error .MFAInvalid, [], store)
  else if env.desktopState ≠ .on ∧ env.powerOnOk = false then
    (Except.error .StartTimeout, powerCallsFor env.desktopState, store)
  else
    match env.grantResult with
    | none =>
        (Except.error .TransportFailure,
         powerCallsFor env.desktopState ++ [.transportIssue], store)
    | some g =>
        (Except.ok { session_id := env.newSessionId, desktop_name := env.desktopName,
                     connection_type := env.connType, grant := g },
         powerCallsFor env.desktopState ++ [.transportIssue, .insertSession],
         store ++ [{ id := env.newSessionId, desktop_id := env.desktopId,
                     user_id := env.userId, connection_type := env.connType,
                     started_at := now, last_heartbeat := none,
                     ended_at := none, end_reason := none }])

/-- Per-tenant policy knobs, from the TypeScript `TenantSettings` type in
`frontend/src/types/index.ts` (§3 TenantPolicy). -/
structure TenantPolicy where
  suspend_threshold_minutes : Nat
  max_session_hours : Nat
deriving DecidableEq, Repr

/-- A session counts as stale for the idle sweep when its `last_heartbeat`
is older than `suspend_threshold_minutes` (§4.5); a session that never sent
a heartbeat has no liveness evidence and counts as stale. -/
def sessionStale (pol : TenantPolicy) (now : Nat) (s : Session) : Bool :=
  match s.last_heartbeat with
  | none => true
  | some t => decide (pol.suspend_threshold_minutes * 60 < now - t)

/-- Modelled from the spec: the max-duration half of the IdlePolicy sweep
(§4.5), absent from `src/`.  Any open session with
`now - started_at > max_session_hours` is force-ended with
`end_reason = "max_duration"`. -/
def IdlePolicy.maxDurationSweep (pol : TenantPolicy) (now : Nat) (store : List Session) :
    List Session :=
  store.map fun s =>
    if s.ended_at = none ∧ pol.max_session_hours * 3600 < now - s.started_at then
      { s with ended_at := some now, end_reason := some "max_duration" }
    else s

/-- Modelled from the spec: the idle-suspend half of the IdlePolicy sweep
(§4.5), absent from `src/`.  For a desktop with `current_state == on` whose
open sessions are all stale (or which has none), issue
`ProviderClient.Power(id, "suspend")` and transition to `suspending`.
Sessions are not ended by this action. -/
def IdlePolicy.idleSuspendStep (pol : TenantPolicy) (now : Nat) (st : DesktopState)
    (sessions : List Session) : DesktopState × List Session × List BrokerCall :=
  if st = .on ∧ sessions.all (fun s => s.ended_at.isSome || sessionStale pol now s) then
    (.suspending, sessions, [.providerPower "suspend"])
  else (st, sessions, [])

/-- An `end_reason` value is admissible when the session is still open or
was closed by client disconnect or by max-duration termination. -/
def reasonOk : Option String → Bool
  | none => true
  | some r => r == "user_disconnect" || r == "max_duration"

/-- An HTTP request as built by the axios client in
`frontend/src/services/api.ts`: method, path relative to the `/api` base,
and the JSON body as key/value pairs (a `none` value is an omitted optional
argument, as in `{ mfa_code }` with `mfa_code === undefined`). -/
structure ApiRequest where
  method : String
  path : String
  body : List (String × Option String)
deriving DecidableEq, Repr

/-- `desktopsApi.connect` from `services/api.ts`:
`(id, mfa_code?) => api.post(/desktops/id/connect, \x7b mfa_code \x7d)`. -/
def desktopsApi.connect (id : String) (mfa_code : Option String) : ApiRequest :=
  { method := "POST", path := "/desktops/" ++ id ++ "/connect",
    body := [("mfa_code", mfa_code)] }

/-- `desktopsApi.nativeRDP` from `services/api.ts`:
`(id, mfa_code?) => api.post(/desktops/id/native-rdp, \x7b mfa_code \x7d)`. -/
def desktopsApi.nativeRDP (id : String) (mfa_code : Option String) : ApiRequest :=
  { method := "POST", path := "/desktops/" ++ id ++ "/native-rdp",
    body := [("mfa_code", mfa_code)] }

/-- `adminApi.terminateDesktop` from `services/api.ts`:
`(id, mfa_code) => api.post(/admin/desktops/id/terminate, \x7b mfa_code \x7d)`
— the MFA code argument is mandatory. -/
def adminApi.terminateDesktop (id : String) (mfa_code : String) : ApiRequest :=
  { method := "POST", path := "/admin/desktops/" ++ id ++ "/terminate",
    body := [("mfa_code", some mfa_code)] }

/-- `adminApi.desktopPower` from `services/api.ts`:
`(id, action) => api.post(/admin/desktops/id/power, \x7b action \x7d)` — no
MFA code parameter. -/
def adminApi.desktopPower (id : String) (action : String) : ApiRequest :=
  { method := "POST", path := "/admin/desktops/" ++ id ++ "/power",
    body := [("action", some action)] }

/-- The `ConnectResult` response type of `frontend/src/types/index.ts`:
`session_id`, `desktop_name`, `connection_type` (`"browser" | "native"`),
and the tunnel grant `guacamole_token`/`guacamole_url` (optional fields in
the TypeScript type). -/
structure ConnectResult where
  session_id : String
  desktop_name : String
  connection_type : String
  guacamole_token : Option String
  guacamole_url : Option String
deriving DecidableEq, Repr

/-- The JSON fields of a `ConnectResult`, key by key, in declaration
order. -/
def ConnectResult.toPairs (r : ConnectResult) : List (String × Option String) :=
  [("session_id", some r.session_id), ("desktop_name", some r.desktop_name),
   ("connection_type", some r.connection_type),
   ("guacamole_token", r.guacamole_token), ("guacamole_url", r.guacamole_url)]

/-- The native-RDP response as consumed by `DesktopCard.handleNativeRDP`
(`const \x7b hostname, port \x7d = res.data`): a direct host-plus-port
grant. -/
structure NativeRDPResult where
  hostname : String
  port : Nat
deriving DecidableEq, Repr

/-- `config.HeartbeatIntervalSec` from `agent/internal/config/config.go`:
how often the agent pings the portal, in seconds. -/
def heartbeatIntervalSec : Nat := 60

/-- The heartbeat endpoint built by `heartbeat.send`:
`portalURL + "/api/desktops/heartbeat"`. -/
def heartbeatURL (portalURL : String) : String :=
  portalURL ++ "/api/desktops/heartbeat"

/-- The disconnect endpoint built by `heartbeat.sendDisconnect`:
`portalURL + "/api/desktops/" + sessionID + "/disconnect"`. -/
def disconnectURL (portalURL sessionID : String) : String :=
  portalURL ++ "/api/desktops/" ++ sessionID ++ "/disconnect"

/-- One wake-up of the `select` loop in `heartbeat.Start`: a ticker fire
(every `heartbeatIntervalSec` seconds) or the closing of the `done`
channel. -/
inductive HBEvent
  | tick
  | doneClose
deriving DecidableEq, Repr

/-- An HTTP request issued by the agent heartbeat package: a heartbeat POST
or a disconnect POST. -/
inductive AgentReq
  | heartbeatPost (session_id url : String)
  | disconnectPost (session_id url : String)
deriving DecidableEq, Repr

/-- The `for \x7b select … \x7d` loop of `heartbeat.Start`
(`agent/internal/heartbeat/heartbeat.go`): each tick emits one heartbeat
request; the first close of `done` emits exactly one disconnect request and
returns.  `resp` carries the HTTP outcome of each send (`none` = transport
error, `some code` = status code); `send` only logs that outcome, so the
loop consumes the list but never branches on it. -/
def hbLoop (sid purl : String) : List HBEvent → List (Option Nat) → List AgentReq
  | [], _ => []
  | HBEvent.tick :: rest, resp =>
      AgentReq.heartbeatPost sid (heartbeatURL purl) :: hbLoop sid purl rest resp.tail
  | HBEvent.doneClose :: _, _ => [AgentReq.disconnectPost sid (disconnectURL purl sid)]

/-- `heartbeat.Start` from `agent/internal/heartbeat/heartbeat.go`: returns
immediately when the session id or portal URL is empty; otherwise sends an
initial heartbeat immediately, then runs the ticker/done loop. -/
def heartbeatStart (sid purl : String) (events : List HBEvent)
    (resp : List (Option Nat)) : List AgentReq :=
  if sid = "" ∨ purl = "" then []
  else AgentReq.heartbeatPost sid (heartbeatURL purl) :: hbLoop sid purl events resp.tail

/-- The number of ticker fires before the first close of `done`. -/
def ticksBeforeDone (events : List HBEvent) : Nat :=
  (events.takeWhile fun e => e == HBEvent.tick).length

/-- The parsed `kamvdi://` URI parameters (`urihandler.ConnectParams` in
`agent/internal/urihandler/handler.go`). -/
structure ConnectParams where
  token : String
  workerAddr : String
  sessionID : String
  desktopName : String
  portalURL : String
deriving DecidableEq, Repr

/-- A local action of the agent during `HandleConnect`: a user
notification, starting the Boundary tunnel process, killing it, or
launching the RDP client. -/
inductive AgentAction
  | notifyShow (title msg : String)
  | tunnelStart (token worker portal : String)
  | killTunnel
  | rdpLaunch (host : String) (port : Nat)
deriving DecidableEq, Repr

/-- `urihandler.HandleConnect` from `agent/internal/urihandler/handler.go`.
`tunnelResult` is the outcome of `boundary.ConnectRDP` (the local port on
success; on success the returned process handle is non-nil, so the nil
guard before `Kill` passes), `rdpResult` the outcome of `rdp.LaunchDirect`.
On tunnel failure: notify and return the wrapped error, with no RDP launch
attempted.  On RDP-launch failure: notify, kill the tunnel process, return
the wrapped error; `heartbeat.Start` is never reached, so no heartbeat or
disconnect request is sent.  On success the heartbeat loop runs until the
tunnel process exits (the goroutine closes `done` when `cmd.Wait` returns,
appended here as the final event).  Returns the Go error value, the local
actions in order, and the HTTP requests sent. -/
def urihandler.HandleConnect (params : ConnectParams)
    (tunnelResult : Except String Nat) (rdpResult : Except String Unit)
    (events : List HBEvent) (resp : List (Option Nat)) :
    Except String Unit × List AgentAction × List AgentReq :=
  let name := if params.desktopName = "" then "Desktop" else params.desktopName
  match tunnelResult with
  | Except.error e =>
      (Except.error ("boundary connect failed: " ++ e),
       [AgentAction.notifyShow "KamVDI" ("Connecting to " ++ name ++ "..."),
        AgentAction.notifyShow "KamVDI" "Establishing secure tunnel...",
        AgentAction.tunnelStart params.token params.workerAddr params.portalURL,
        AgentAction.notifyShow "KamVDI Error" ("Failed to establish tunnel: " ++ e)],
       [])
  | Except.ok localPort =>
      match rdpResult with
      | Except.error e =>
          (Except.error ("RDP launch failed: " ++ e),
           [AgentAction.notifyShow "KamVDI" ("Connecting to " ++ name ++ "..."),
            AgentAction.notifyShow "KamVDI" "Establishing secure tunnel...",
            AgentAction.tunnelStart params.token params.workerAddr params.portalURL,
            AgentAction.rdpLaunch "127.0.0.1" localPort,
            AgentAction.notifyShow "KamVDI Error" ("Failed to launch RDP client: " ++ e),
            AgentAction.killTunnel],
           [])
      | Except.ok _ =>
          (Except.ok (),
           [AgentAction.notifyShow "KamVDI" ("Connecting to " ++ name ++ "..."),
            AgentAction.notifyShow "KamVDI" "Establishing secure tunnel...",
            AgentAction.tunnelStart params.token params.workerAddr params.portalURL,
            AgentAction.rdpLaunch "127.0.0.1" localPort,
            AgentAction.notifyShow "KamVDI" ("Connected to " ++ name),
            AgentAction.notifyShow "KamVDI" ("Disconnected from " ++ name)],
           heartbeatStart params.sessionID params.portalURL
             (events ++ [HBEvent.doneClose]) resp)

/-- C1: every desktop state is one of the eight enum values of the
TypeScript union; every modelled backend state change follows an edge of the
§3 transition relation; `error` is terminal (no step leaves it); and the
default state before any state check is `unknown`. -/
theorem desktop_state_machine_follows_transitions :
    (∀ s : DesktopState, s.key ∈ currentStateValues) ∧
    (∀ s s' : DesktopState, BrokerStep s s' → allowedTransition s s' = true) ∧
    (∀ s' : DesktopState, ¬ BrokerStep DesktopState.error s') ∧
    defaultState = DesktopState.unknown := by
  refine ⟨?_, ?_, ?_, rfl⟩
  · intro s; cases s <;> simp [DesktopState.key, currentStateValues]
  · intro s s' h; cases h <;> rfl
  · intro s' h; cases h

/-- Witness for C1 at a concrete transition: the Connect power-on step
`off → starting` is along an allowed edge. -/
theorem desktop_state_machine_follows_transitions_witness :
    allowedTransition DesktopState.off DesktopState.starting = true :=
  desktop_state_machine_follows_transitions.2.1 DesktopState.off DesktopState.starting
    BrokerStep.connectPowerOn

/-- C2: Disconnect is idempotent.  A second call (at any later time) leaves
the store exactly as the first call left it; the error component is always
`none` (so the second call — and a call on a missing or already-ended
session — is not an error); the first call on an open session with the given
id marks it ended with `end_reason = "user_disconnect"`; and a call whose
session id matches nothing leaves the store unchanged. -/
theorem disconnect_idempotent (sid : String) (now now' : Nat) (store : List Session) :
    (SessionBroker.Disconnect sid now' (SessionBroker.Disconnect sid now store).1).1
      = (SessionBroker.Disconnect sid now store).1 ∧
    (SessionBroker.Disconnect sid now store).2 = none ∧
    (∀ s ∈ store, s.id = sid → s.ended_at = none →
      { s with ended_at := some now, end_reason := some "user_disconnect" }
        ∈ (SessionBroker.Disconnect sid now store).1) ∧
    ((∀ s ∈ store, s.id ≠ sid) → (SessionBroker.Disconnect sid now store).1 = store) := by
  refine ⟨?_, rfl, ?_, ?_⟩
  · simp only [SessionBroker.Disconnect, List.map_map]
    apply List.map_congr_left
    intro s _
    by_cases hid : s.id = sid
    · cases h : s.ended_at with
      | none => simp [Function.comp, hid, endSession, h]
      | some t => simp [Function.comp, hid, endSession, h]
    · simp [Function.comp, hid]
  · intro s hs hid hopen
    have hmem := List.mem_map_of_mem
      (fun s => if s.id = sid then endSession now "user_disconnect" s else s) hs
    simpa [SessionBroker.Disconnect, hid, endSession, hopen] using hmem
  · intro hnone
    simp only [SessionBroker.Disconnect]
    conv_rhs => rw [← List.map_id store]
    apply List.map_congr_left
    intro s hs
    simp [hnone s hs]

/-- Witness for C2 at a concrete store: disconnecting the open session
`"s1"` marks it ended with `end_reason = "user_disconnect"`. -/
theorem disconnect_idempotent_witness :
    (⟨"s1", "d1", "u1", "native", 0, none, some 1, some "user_disconnect"⟩ : Session)
      ∈ (SessionBroker.Disconnect "s1" 1
          [⟨"s1", "d1", "u1", "native", 0, none, none, none⟩]).1 :=
  (disconnect_idempotent "s1" 1 2
      [⟨"s1", "d1", "u1", "native", 0, none, none, none⟩]).2.2.1
    ⟨"s1", "d1", "u1", "native", 0, none, none, none⟩ (by simp) rfl rfl

/-- C3: the session row is inserted only as the last step of Connect, after
the grant is confirmed.  Whenever Connect returns an error — at any step —
the session store is exactly what it was before the call (no orphaned row);
and on success the last collaborator step is the session insertion, which
only happens once a grant was obtained. -/
theorem connect_session_insert_is_last (env : ConnectEnv) (now : Nat) (store : List Session) :
    ((SessionBroker.Connect env now store).1.isOk = false →
      (SessionBroker.Connect env now store).2.2 = store) ∧
    ((SessionBroker.Connect env now store).1.isOk = true →
      (SessionBroker.Connect env now store).2.1
        = powerCallsFor env.desktopState ++
            [BrokerCall.transportIssue, BrokerCall.insertSession] ∧
      (SessionBroker.Connect env now store).2.1.getLast? = some BrokerCall.insertSession ∧
      env.grantResult.isSome = true ∧
      (SessionBroker.Connect env now store).2.2 = store ++
        [{ id := env.newSessionId, desktop_id := env.desktopId, user_id := env.userId,
           connection_type := env.connType, started_at := now, last_heartbeat := none,
           ended_at := none, end_reason := none }]) := by
  unfold SessionBroker.Connect
  repeat' split
  all_goals simp_all [Except.isOk, Except.toBool, List.getLast?_append_cons,
    List.getLast?_cons_cons, List.getLast?_singleton]

/-- Witness for C3: a Connect refused at the desktop-lookup step leaves the
(empty) session store untouched. -/
theorem connect_session_insert_is_last_witness :
    (SessionBroker.Connect
        ⟨false, true, false, none, false, .off, true, none,
         "d1", "u1", "native", "Desk", "s1"⟩ 0 []).2.2 = [] :=
  (connect_session_insert_is_last
      ⟨false, true, false, none, false, .off, true, none,
       "d1", "u1", "native", "Desk", "s1"⟩ 0 []).1 rfl

/-- C6: Connect with MFA required and the code omitted fails with
`MFARequired` and has no side effects: no collaborator call is made (neither
`ProviderClient` nor the transport) and the session store is unchanged. -/
theorem connect_mfa_required_no_side_effects (env : ConnectEnv) (now : Nat)
    (store : List Session) (h1 : env.desktopFound = true) (h2 : env.ownerOk = true)
    (h3 : env.mfaRequired = true) (h4 : env.mfaProof = none) :
    (SessionBroker.Connect env now store).1 = Except.error ConnectError.MFARequired ∧
    (SessionBroker.Connect env now store).2.1 = [] ∧
    (SessionBroker.Connect env now store).2.2 = store := by
  unfold SessionBroker.Connect
  simp [h1, h2, h3, h4]

/-- Witness for C6 at a concrete environment: MFA required, code omitted. -/
theorem connect_mfa_required_no_side_effects_witness :
    (SessionBroker.Connect
        ⟨true, true, true, none, false, .off, true, none,
         "d1", "u1", "native", "Desk", "s1"⟩ 0 []).1
      = Except.error ConnectError.MFARequired :=
  (connect_mfa_required_no_side_effects
      ⟨true, true, true, none, false, .off, true, none,
       "d1", "u1", "native", "Desk", "s1"⟩ 0 [] rfl rfl rfl rfl).1

/-- C5: starting from a store whose sessions carry only admissible
`end_reason` values (`null`, `"user_disconnect"`, `"max_duration"`), the two
session-closing operations preserve that invariant — Disconnect writes only
`"user_disconnect"` and the max-duration sweep writes only `"max_duration"`
— while the idle-suspend step returns the session list unchanged (it never
ends a session or writes an `end_reason`) and only moves the desktop from
`on` to `suspending`. -/
theorem end_reason_only_disconnect_or_max_duration (pol : TenantPolicy) (now : Nat)
    (sid : String) (st : DesktopState) (store : List Session)
    (h : ∀ s ∈ store, reasonOk s.end_reason = true) :
    (∀ s ∈ (SessionBroker.Disconnect sid now store).1, reasonOk s.end_reason = true) ∧
    (∀ s ∈ IdlePolicy.maxDurationSweep pol now store, reasonOk s.end_reason = true) ∧
    (IdlePolicy.idleSuspendStep pol now st store).2.1 = store ∧
    (st = .on →
      store.all (fun s => s.ended_at.isSome || sessionStale pol now s) = true →
      (IdlePolicy.idleSuspendStep pol now st store).1 = DesktopState.suspending) := by
  refine ⟨?_, ?_, ?_, ?_⟩
  · intro s hs
    simp only [SessionBroker.Disconnect, List.mem_map] at hs
    obtain ⟨s0, hs0, rfl⟩ := hs
    by_cases hid : s0.id = sid
    · cases hod : s0.ended_at with
      | none => simp [hid, endSession, hod, reasonOk]
      | some t => simpa [hid, endSession, hod] using h s0 hs0
    · simpa [hid] using h s0 hs0
  · intro s hs
    simp only [IdlePolicy.maxDurationSweep, List.mem_map] at hs
    obtain ⟨s0, hs0, rfl⟩ := hs
    by_cases hc : s0.ended_at = none ∧ pol.max_session_hours * 3600 < now - s0.started_at
    · simp [hc, reasonOk]
    · simpa [hc] using h s0 hs0
  · unfold IdlePolicy.idleSuspendStep
    split <;> rfl
  · intro h1 h2
    simp [IdlePolicy.idleSuspendStep, h1, h2]

/-- Witness for C5 at a concrete store: the idle-suspend step on an `on`
desktop with one stale open session moves it to `suspending`. -/
theorem end_reason_only_disconnect_or_max_duration_witness :
    (IdlePolicy.idleSuspendStep ⟨30, 8⟩ 10000 DesktopState.on
        [⟨"s1", "d1", "u1", "browser", 0, some 1, none, none⟩]).1
      = DesktopState.suspending :=
  (end_reason_only_disconnect_or_max_duration ⟨30, 8⟩ 10000 "s1" DesktopState.on
      [⟨"s1", "d1", "u1", "browser", 0, some 1, none, none⟩]
      (by decide)).2.2.2 rfl (by decide)

theorem hbLoop_resp_irrel (sid purl : String) (events : List HBEvent) :
    ∀ resp resp', hbLoop sid purl events resp = hbLoop sid purl events resp' := by
  induction events with
  | nil => intro resp resp'; rfl
  | cons e rest ih =>
      intro resp resp'
      cases e with
      | tick => simp [hbLoop, ih resp.tail resp'.tail]
      | doneClose => rfl

theorem hbLoop_eq_of_done (sid purl : String) (events : List HBEvent)
    (resp : List (Option Nat)) (h : HBEvent.doneClose ∈ events) :
    hbLoop sid purl events resp
      = List.replicate (ticksBeforeDone events)
          (AgentReq.heartbeatPost sid (heartbeatURL purl))
        ++ [AgentReq.disconnectPost sid (disconnectURL purl sid)] := by
  induction events generalizing resp with
  | nil => cases h
  | cons e rest ih =>
      cases e with
      | tick =>
          have h' : HBEvent.doneClose ∈ rest := by simpa using h
          simp [hbLoop, ticksBeforeDone, List.takeWhile, List.replicate,
            ih resp.tail h']
      | doneClose => rfl

theorem hbLoop_eq_of_no_done (sid purl : String) (events : List HBEvent)
    (resp : List (Option Nat)) (h : HBEvent.doneClose ∉ events) :
    hbLoop sid purl events resp
      = List.replicate events.length (AgentReq.heartbeatPost sid (heartbeatURL purl)) := by
  induction events generalizing resp with
  | nil => rfl
  | cons e rest ih =>
      cases e with
      | tick =>
          have h' : HBEvent.doneClose ∉ rest := fun hc => h (List.mem_cons_of_mem _ hc)
          simp [hbLoop, List.replicate, ih resp.tail h']
      | doneClose => exact absurd (List.mem_cons_self _ _) h

theorem ticksBeforeDone_of_no_done (events : List HBEvent)
    (h : HBEvent.doneClose ∉ events) : ticksBeforeDone events = events.length := by
  induction events with
  | nil => rfl
  | cons e rest ih =>
      cases e with
      | tick =>
          have h' : HBEvent.doneClose ∉ rest := fun hc => h (List.mem_cons_of_mem _ hc)
          simp [ticksBeforeDone, List.takeWhile] at ih ⊢
          exact ih h'
      | doneClose => exact absurd (List.mem_cons_self _ _) h

/-- C4: a connect call carries the desktop id (in the request path) and the
optional MFA code (in the body); the connection type is carried by the
choice of endpoint (`/connect` for browser, `/native-rdp` for native — the
two paths are distinct for every id); and the response carries `session_id`,
`desktop_name`, `connection_type`, and the grant — the tunnel token/URL pair
of `ConnectResult` for browser, or the host/port pair of the native-RDP
response. -/
theorem connect_interface_shape (id : String) (mfa : Option String)
    (r : ConnectResult) (n : NativeRDPResult) :
    (desktopsApi.connect id mfa).path = "/desktops/" ++ id ++ "/connect" ∧
    (desktopsApi.connect id mfa).body = [("mfa_code", mfa)] ∧
    (desktopsApi.nativeRDP id mfa).path = "/desktops/" ++ id ++ "/native-rdp" ∧
    (desktopsApi.nativeRDP id mfa).body = [("mfa_code", mfa)] ∧
    (desktopsApi.connect id mfa).path ≠ (desktopsApi.nativeRDP id mfa).path ∧
    r.toPairs.lookup "session_id" = some (some r.session_id) ∧
    r.toPairs.lookup "desktop_name" = some (some r.desktop_name) ∧
    r.toPairs.lookup "connection_type" = some (some r.connection_type) ∧
    r.toPairs.lookup "guacamole_token" = some r.guacamole_token ∧
    r.toPairs.lookup "guacamole_url" = some r.guacamole_url ∧
    (n.hostname, n.port) = (n.hostname, n.port) := by
  refine ⟨rfl, rfl, rfl, rfl, ?_, ?_, ?_, ?_, ?_, ?_, rfl⟩
  · intro h
    have h2 := congrArg String.length h
    simp only [desktopsApi.connect, desktopsApi.nativeRDP, String.length_append] at h2
    have e1 : ("/connect" : String).length = 8 := rfl
    have e2 : ("/native-rdp" : String).length = 11 := rfl
    rw [e1, e2] at h2
    omega
  all_goals simp [ConnectResult.toPairs, List.lookup]

/-- Witness for C4 at a concrete call: the browser connect request for
desktop `"d1"` with no MFA code has the expected path. -/
theorem connect_interface_shape_witness :
    (desktopsApi.connect "d1" none).path = "/desktops/d1/connect" :=
  (connect_interface_shape "d1" none ⟨"s", "d", "browser", none, none⟩ ⟨"h", 1⟩).1

/-- C7: the admin terminate request always carries a `mfa_code` field (its
argument is a mandatory string), while the admin power request carries only
the action — its body has no `mfa_code` field at all. -/
theorem admin_terminate_requires_mfa (id mfa action : String) :
    (adminApi.terminateDesktop id mfa).path = "/admin/desktops/" ++ id ++ "/terminate" ∧
    (adminApi.terminateDesktop id mfa).body = [("mfa_code", some mfa)] ∧
    (adminApi.desktopPower id action).path = "/admin/desktops/" ++ id ++ "/power" ∧
    (adminApi.desktopPower id action).body = [("action", some action)] ∧
    (adminApi.desktopPower id action).body.lookup "mfa_code" = none := by
  refine ⟨rfl, rfl, rfl, rfl, ?_⟩
  simp [adminApi.desktopPower, List.lookup]

/-- C8: with a non-empty session id and portal URL, `heartbeat.Start` sends
one heartbeat immediately (head of the trace), its interval constant is 60
seconds, then one heartbeat per tick; the trace does not depend on the HTTP
outcomes of the sends (failures never stop the loop); when `done` closes it
sends exactly one disconnect for that session, as the last request, and when
`done` never closes no disconnect is ever sent. -/
theorem heartbeat_start_behavior (sid purl : String) (events : List HBEvent)
    (resp resp' : List (Option Nat)) (hs : sid ≠ "") (hp : purl ≠ "") :
    heartbeatIntervalSec = 60 ∧
    (heartbeatStart sid purl events resp).head?
      = some (AgentReq.heartbeatPost sid (heartbeatURL purl)) ∧
    heartbeatStart sid purl events resp = heartbeatStart sid purl events resp' ∧
    (heartbeatStart sid purl events resp).count
        (AgentReq.heartbeatPost sid (heartbeatURL purl))
      = 1 + ticksBeforeDone events ∧
    (HBEvent.doneClose ∈ events →
      (heartbeatStart sid purl events resp).count
          (AgentReq.disconnectPost sid (disconnectURL purl sid)) = 1 ∧
      (heartbeatStart sid purl events resp).getLast?
        = some (AgentReq.disconnectPost sid (disconnectURL purl sid))) ∧
    (HBEvent.doneClose ∉ events →
      (heartbeatStart sid purl events resp).count
          (AgentReq.disconnectPost sid (disconnectURL purl sid)) = 0) := by
  have hcond : ¬ (sid = "" ∨ purl = "") := by
    rintro (h | h)
    · exact hs h
    · exact hp h
  refine ⟨rfl, ?_, ?_, ?_, ?_, ?_⟩
  · simp [heartbeatStart, hcond]
  · simp [heartbeatStart, hcond, hbLoop_resp_irrel sid purl events resp.tail resp'.tail]
  · by_cases hd : HBEvent.doneClose ∈ events
    · simp [heartbeatStart, hcond, hbLoop_eq_of_done sid purl events resp.tail hd,
        List.count_cons, List.count_append, List.count_replicate, Nat.add_comm]
    · simp [heartbeatStart, hcond, hbLoop_eq_of_no_done sid purl events resp.tail hd,
        List.count_cons, List.count_replicate, ticksBeforeDone_of_no_done events hd,
        Nat.add_comm]
  · intro hd
    constructor
    · simp [heartbeatStart, hcond, hbLoop_eq_of_done sid purl events resp.tail hd,
        List.count_cons, List.count_append, List.count_replicate]
    · unfold heartbeatStart
      rw [if_neg hcond, hbLoop_eq_of_done sid purl events resp.tail hd,
        ← List.cons_append, List.getLast?_append_cons]
      rfl
  · intro hd
    simp [heartbeatStart, hcond, hbLoop_eq_of_no_done sid purl events resp.tail hd,
      List.count_cons, List.count_replicate]

/-- Witness for C8 at a concrete run: one tick then `done` closes — exactly
one disconnect request is sent, as the last request. -/
theorem heartbeat_start_behavior_witness :
    (heartbeatStart "s1" "http://portal" [HBEvent.tick, HBEvent.doneClose] []).count
        (AgentReq.disconnectPost "s1" (disconnectURL "http://portal" "s1")) = 1 :=
  ((heartbeat_start_behavior "s1" "http://portal" [HBEvent.tick, HBEvent.doneClose]
      [] [] (by decide) (by decide)).2.2.2.2.1 (by decide)).1

/-- C9: in the agent's `HandleConnect`, a tunnel-establishment failure
returns the wrapped error with no RDP launch attempted and no HTTP request
sent; an RDP-launch failure after the tunnel started kills the tunnel
process, returns the wrapped error, and sends no heartbeat and no
disconnect request for the session. -/
theorem handle_connect_failure_paths (params : ConnectParams)
    (tunnelResult : Except String Nat) (rdpResult : Except String Unit)
    (events : List HBEvent) (resp : List (Option Nat)) :
    (∀ e, tunnelResult = Except.error e →
      (urihandler.HandleConnect params tunnelResult rdpResult events resp).1
        = Except.error ("boundary connect failed: " ++ e) ∧
      (∀ h p, AgentAction.rdpLaunch h p ∉
        (urihandler.HandleConnect params tunnelResult rdpResult events resp).2.1) ∧
      (urihandler.HandleConnect params tunnelResult rdpResult events resp).2.2 = []) ∧
    (∀ p e, tunnelResult = Except.ok p → rdpResult = Except.error e →
      (urihandler.HandleConnect params tunnelResult rdpResult events resp).1
        = Except.error ("RDP launch failed: " ++ e) ∧
      AgentAction.killTunnel ∈
        (urihandler.HandleConnect params tunnelResult rdpResult events resp).2.1 ∧
      (urihandler.HandleConnect params tunnelResult rdpResult events resp).2.2 = []) := by
  constructor
  · rintro e rfl
    refine ⟨rfl, ?_, rfl⟩
    intro h p
    simp [urihandler.HandleConnect]
  · rintro p e rfl rfl
    refine ⟨rfl, ?_, rfl⟩
    simp [urihandler.HandleConnect]

/-- Witness for C9 at a concrete run: the tunnel starts, the RDP launch
fails, and the tunnel process is killed. -/
theorem handle_connect_failure_paths_witness :
    AgentAction.killTunnel ∈
      (urihandler.HandleConnect ⟨"t", "w", "s1", "Desk", "http://portal"⟩
        (Except.ok 5) (Except.error "no mstsc") [] []).2.1 :=
  ((handle_connect_failure_paths ⟨"t", "w", "s1", "Desk", "http://portal"⟩
      (Except.ok 5) (Except.error "no mstsc") [] []).2 5 "no mstsc" rfl rfl).2.1

/-- C10: `heartbeat.Start` with an empty session id or an empty portal URL
returns immediately: no heartbeat and no disconnect request is ever
issued. -/
theorem heartbeat_start_empty_skips (sid purl : String) (events : List HBEvent)
    (resp : List (Option Nat)) (h : sid = "" ∨ purl = "") :
    heartbeatStart sid purl events resp = [] := by
  simp [heartbeatStart, h]

/-- Witness for C10: an empty session id yields no requests even with
pending ticks and a closing `done` channel. -/
theorem heartbeat_start_empty_skips_witness :
    heartbeatStart "" "http://portal" [HBEvent.tick, HBEvent.doneClose] [] = [] :=
  heartbeat_start_empty_skips "" "http://portal" [HBEvent.tick, HBEvent.doneClose]
    [] (Or.inl rfl)

end CwmVDI
